import Mathlib

/-!
Verification of the ollama daemon core against its natural-language
specification.  The Go HTTP layer (`server/routes.go`) and the C++ binding
driving the native generation loop (`llama/binding/binding.cpp`) are shallowly
embedded: the native inference library (`llama_eval`, the `llama_sample_*`
family, the tokenizer) is opaque in the source and is therefore abstracted as
a record of function parameters (`Ops`); every piece of control flow that
lives in the repository itself is translated directly.
-/

namespace Ollama

/-- Carrier for C `float` values (logits and sampling scalars).  The
binding's own control flow only ever compares these values, doubles
`mirostat_tau`, and adds `logit_bias` entries, so any linearly ordered
commutative ring is a faithful carrier; `Int` keeps every definition
kernel-executable. -/
abbrev FloatV := Int

/-- Token ids are machine ints in the source; all values that occur are
vocabulary indices, modelled as `Nat`. -/
abbrev Token := Nat

/-- A candidate entry `llama_token_data {id, logit, p}`; the probability
field is only written by the opaque samplers, so we keep `(id, logit)`. -/
abbrev Candidate := Token × FloatV

/-- The `gpt_params` block — the fields of the parameter block that `llama_predict`
reads (`binding.cpp`, `llama_allocate_params`). C float fields are modelled
as `FloatV`, C ints as `Int` where the source can hold negative sentinels. -/
structure GptParams where
  seed : Int
  n_threads : Nat
  n_predict : Int
  repeat_last_n : Int
  top_k : Int
  top_p : FloatV
  tfs_z : FloatV
  typical_p : FloatV
  temp : FloatV
  repeat_penalty : FloatV
  presence_penalty : FloatV
  frequency_penalty : FloatV
  mirostat : Int
  mirostat_tau : FloatV
  mirostat_eta : FloatV
  penalize_nl : Bool
  n_batch : Nat
  n_keep : Int
  antiprompt : List String
  logit_bias : List (Token × FloatV)
  path_prompt_cache : String
  prompt_cache_all : Bool
  prompt_cache_ro : Bool
  prompt : String
  deriving Repr

/-- The opaque native surface used by `llama_predict`: tokenizer, model
evaluation (logits as a function of the evaluated context), the
`llama_sample_*` family, detokenisation, special tokens, and the context
size `llama_n_ctx(ctx)`.  All are deterministic functions, as the native
library is; the categorical sampler threads the context RNG state
explicitly. -/
structure Ops where
  n_ctx : Nat
  n_vocab : Nat
  tokenize : Bool → String → List Token
  model : List Token → List FloatV
  tokenToStr : Token → String
  eosTok : Token
  bosTok : Token
  nlTok : Token
  sampleRepetitionPenalty : List Candidate → List Token → FloatV → List Candidate
  sampleFreqPresPenalties : List Candidate → List Token → FloatV → FloatV → List Candidate
  sampleTopK : List Candidate → Int → Nat → List Candidate
  sampleTailFree : List Candidate → FloatV → Nat → List Candidate
  sampleTypical : List Candidate → FloatV → Nat → List Candidate
  sampleTopP : List Candidate → FloatV → Nat → List Candidate
  sampleTemperature : List Candidate → FloatV → List Candidate
  sampleGreedy : List Candidate → Token
  sampleMirostat : List Candidate → FloatV → FloatV → Nat → FloatV → Token × FloatV
  sampleMirostatV2 : List Candidate → FloatV → FloatV → FloatV → Token × FloatV
  sampleToken : List Candidate → Nat → Token × Nat
  tokenCallback : Nat → String → Bool

/-- Application of `logits[it->first] += it->second` over the `logit_bias` map. -/
def applyLogitBias (logits : List FloatV) (bias : List (Token × FloatV)) : List FloatV :=
  bias.foldl (fun l kv => l.set kv.1 (l.getD kv.1 0 + kv.2)) logits

/-- The function-local `static float mirostat_mu` pair in `llama_predict`:
a C++ local static is initialised the first time control reaches it and
persists for the process lifetime, so the two branches carry one optional
cell each (`none` = not yet initialised). -/
structure MuStatics where
  mu1 : Option FloatV
  mu2 : Option FloatV
  deriving Repr, DecidableEq

/-- Result of one execution of the per-step sampling block. `muUsed1`/
`muUsed2` record the `mu` value handed to the mirostat sampler when that
branch ran (observation of the static's content, not extra behaviour). -/
structure SampleOut where
  id : Token
  statics : MuStatics
  rng : Nat
  muUsed1 : Option FloatV
  muUsed2 : Option FloatV
  deriving Repr

/-- The shared prelude of the sampling block (`binding.cpp:303-336`): apply
the `logit_bias` map to the logits, build the candidate array over the
vocabulary, then apply the repetition penalty and the frequency/presence
penalties over the last `last_n_repeat` tokens of the last-N buffer. -/
def penalizedCandidates (ops : Ops) (p : GptParams) (lastN : List Token)
    (logits0 : List FloatV) : List Candidate :=
  let repeat_last_n : Nat :=
    if p.repeat_last_n < 0 then ops.n_ctx else p.repeat_last_n.toNat
  let logits := applyLogitBias logits0 p.logit_bias
  let candidates : List Candidate :=
    (List.range ops.n_vocab).map fun i => (i, logits.getD i 0)
  let nl_logit := logits.getD ops.nlTok 0
  let last_n_repeat := min (min lastN.length repeat_last_n) ops.n_ctx
  let candidates := ops.sampleRepetitionPenalty candidates
    (lastN.drop (lastN.length - last_n_repeat)) p.repeat_penalty
  let candidates := ops.sampleFreqPresPenalties candidates
    (lastN.drop (lastN.length - last_n_repeat))
    p.frequency_penalty p.presence_penalty
  -- `if (!penalize_nl) logits[llama_token_nl()] = nl_logit;` writes the raw
  -- logits array, which is not read again in this step.
  let _logitsAfterNl := if ¬ p.penalize_nl then logits.set ops.nlTok nl_logit else logits
  candidates

/-- The per-step sampling block of `llama_predict`
(`binding.cpp:273-367`): build the penalised candidate array, then choose
the token by greedy argmax (`temp <= 0`), Mirostat v1/v2 (each with its
function-local static `mirostat_mu`), or the
top-k/tail-free/typical/top-p/temperature/categorical pipeline. -/
def sampleStep (ops : Ops) (p : GptParams) (lastN : List Token)
    (logits0 : List FloatV) (st : MuStatics) (rng : Nat) : SampleOut :=
  let temp := p.temp
  let top_k : Int := if p.top_k ≤ 0 then (ops.n_vocab : Int) else p.top_k
  let candidates := penalizedCandidates ops p lastN logits0
  if temp ≤ 0 then
    { id := ops.sampleGreedy candidates, statics := st, rng := rng,
      muUsed1 := none, muUsed2 := none }
  else if p.mirostat = 1 then
    let mirostat_mu := match st.mu1 with
      | none => 2 * p.mirostat_tau
      | some m => m
    let mirostat_m := 100
    let candidates := ops.sampleTemperature candidates temp
    let r := ops.sampleMirostat candidates p.mirostat_tau p.mirostat_eta
      mirostat_m mirostat_mu
    { id := r.1, statics := { st with mu1 := some r.2 }, rng := rng,
      muUsed1 := some mirostat_mu, muUsed2 := none }
  else if p.mirostat = 2 then
    let mirostat_mu := match st.mu2 with
      | none => 2 * p.mirostat_tau
      | some m => m
    let candidates := ops.sampleTemperature candidates temp
    let r := ops.sampleMirostatV2 candidates p.mirostat_tau p.mirostat_eta
      mirostat_mu
    { id := r.1, statics := { st with mu2 := some r.2 }, rng := rng,
      muUsed1 := none, muUsed2 := some mirostat_mu }
  else
    let candidates := ops.sampleTopK candidates top_k 1
    let candidates := ops.sampleTailFree candidates p.tfs_z 1
    let candidates := ops.sampleTypical candidates p.typical_p 1
    let candidates := ops.sampleTopP candidates p.top_p 1
    let candidates := ops.sampleTemperature candidates temp
    let r := ops.sampleToken candidates rng
    { id := r.1, statics := st, rng := r.2, muUsed1 := none, muUsed2 := none }

/-- The per-step sampling as worded by the specification (§4.4 step 5 /
claim C3): penalties are applied as repetition penalty over the last
`repeat_last_n` tokens then frequency and presence penalties, and the token
is chosen by greedy argmax when `temperature ≤ 0`; otherwise temperature
scaling then Mirostat v1 or v2 when `mirostat` is 1 or 2; otherwise
top-k → tail-free → typical → top-p → temperature → categorical sample. -/
def sampleStepSpec (ops : Ops) (p : GptParams) (lastN : List Token)
    (logits0 : List FloatV) (st : MuStatics) (rng : Nat) : SampleOut :=
  let repeat_last_n : Nat :=
    if p.repeat_last_n < 0 then ops.n_ctx else p.repeat_last_n.toNat
  let logits := applyLogitBias logits0 p.logit_bias
  let candidates : List Candidate :=
    (List.range ops.n_vocab).map fun i => (i, logits.getD i 0)
  -- the last `repeat_last_n` tokens of the last-N buffer
  let lastTail := lastN.drop (lastN.length - repeat_last_n)
  let candidates := ops.sampleRepetitionPenalty candidates lastTail p.repeat_penalty
  let candidates := ops.sampleFreqPresPenalties candidates lastTail
    p.frequency_penalty p.presence_penalty
  if p.temp ≤ 0 then
    { id := ops.sampleGreedy candidates, statics := st, rng := rng,
      muUsed1 := none, muUsed2 := none }
  else if p.mirostat = 1 ∨ p.mirostat = 2 then
    if p.mirostat = 1 then
      let mu := match st.mu1 with
        | none => 2 * p.mirostat_tau
        | some m => m
      let r := ops.sampleMirostat (ops.sampleTemperature candidates p.temp)
        p.mirostat_tau p.mirostat_eta 100 mu
      { id := r.1, statics := { st with mu1 := some r.2 }, rng := rng,
        muUsed1 := some mu, muUsed2 := none }
    else
      let mu := match st.mu2 with
        | none => 2 * p.mirostat_tau
        | some m => m
      let r := ops.sampleMirostatV2 (ops.sampleTemperature candidates p.temp)
        p.mirostat_tau p.mirostat_eta mu
      { id := r.1, statics := { st with mu2 := some r.2 }, rng := rng,
        muUsed1 := none, muUsed2 := some mu }
  else
    let candidates := ops.sampleTopK candidates
      (if p.top_k ≤ 0 then (ops.n_vocab : Int) else p.top_k) 1
    let candidates := ops.sampleTailFree candidates p.tfs_z 1
    let candidates := ops.sampleTypical candidates p.typical_p 1
    let candidates := ops.sampleTopP candidates p.top_p 1
    let candidates := ops.sampleTemperature candidates p.temp
    let r := ops.sampleToken candidates rng
    { id := r.1, statics := st, rng := r.2, muUsed1 := none, muUsed2 := none }

/-- How the generation loop stopped: the `goto end` on a stop-sequence hit,
the `break` on an end-of-sequence token, or the `break` when the token
callback returned false.  `none` while the loop is still running. -/
inductive ExitKind where
  | antipromptHit
  | eosHit
  | callbackFalse
  deriving Repr, DecidableEq

/-- The mutable locals of `llama_predict` that do not involve the RNG or the
mirostat statics.  `kv` and `lastLogits` model the native context state: the
token written at each evaluated position, and the logits produced by the
most recent `llama_eval`.  `saves` records each `llama_save_session_file`
call; `emitted` records each token passed to the token callback. -/
structure CoreState where
  n_past : Nat
  n_remain : Int
  n_consumed : Nat
  n_session_consumed : Nat
  n_keep : Nat
  embd : List Token
  embd_inp : List Token
  session_tokens : List Token
  last_n_tokens : List Token
  kv : List Token
  lastLogits : List FloatV
  path_session : String
  need_to_save_session : Bool
  saves : List (List Token)
  res : String
  emitted : List Token
  finishedVia : Option ExitKind

/-- Full loop state: the core plus the RNG cell and the function-local
static `mirostat_mu` cells, with observation logs of the `mu` values handed
to the mirostat samplers. -/
structure PState where
  core : CoreState
  statics : MuStatics
  muLog1 : List FloatV
  muLog2 : List FloatV
  rng : Nat

/-- Context-window rotation (`binding.cpp:210-223`): when
`n_past + embd.size() > n_ctx`, keep the first `max(1, n_keep)` tokens,
splice `n_left/2` tokens from the last-N buffer in front of `embd`, and
clear `path_session` so the prompt cache is no longer saved. -/
def contextRotate (ops : Ops) (c : CoreState) : CoreState :=
  if c.n_past + c.embd.length > ops.n_ctx then
    let n_left : Int := (c.n_past : Int) - (c.n_keep : Int)
    let half : Nat := (Int.tdiv n_left 2).toNat
    { c with
      n_past := max 1 c.n_keep,
      embd := ((c.last_n_tokens.drop (ops.n_ctx - half - c.embd.length)).take half)
        ++ c.embd,
      path_session := "" }
  else c

/-- The inner matching loop of the session-prefix reuse
(`binding.cpp:228-242`): walk `embd` against `session_tokens` from index
`sc`; on a mismatch truncate the session to `sc` and stop; stop after
consuming the last session token.  Returns the number of matched tokens
(`i`) and the resulting session vector. -/
def sessionReuseGo (session : List Token) (sc : Nat) : List Token → Nat × List Token
  | [] => (0, session)
  | t :: rest =>
    if t ≠ session.getD sc 0 then (0, session.take sc)
    else if sc + 1 ≥ session.length then (1, session)
    else
      let r := sessionReuseGo session (sc + 1) rest
      (r.1 + 1, r.2)

/-- Session-prefix reuse (`binding.cpp:227-246`): advance `n_past` and
`n_session_consumed` over the matched prefix and erase it from `embd`. -/
def sessionReuse (c : CoreState) : CoreState :=
  if c.n_session_consumed < c.session_tokens.length then
    let r := sessionReuseGo c.session_tokens c.n_session_consumed c.embd
    { c with
      n_past := c.n_past + r.1,
      n_session_consumed := c.n_session_consumed + r.1,
      session_tokens := r.2,
      embd := c.embd.drop r.1 }
  else c

/-- The batch-evaluation loop (`binding.cpp:251-263`): evaluate `pending`
in chunks of at most `n_batch` tokens; each `llama_eval` overwrites the
context positions starting at `n_past` and leaves the logits of the last
evaluated position. -/
def batchEvalGo (ops : Ops) (nBatch : Nat) : Nat → List Token → CoreState → CoreState
  | 0, _, c => c
  | _ + 1, [], c => c
  | fuel + 1, t :: ts, c =>
    let pending := t :: ts
    let n_eval := min pending.length nBatch
    let batch := pending.take n_eval
    let kv := c.kv.take c.n_past ++ batch ++ c.kv.drop (c.n_past + n_eval)
    batchEvalGo ops nBatch fuel (pending.drop n_eval)
      { c with kv := kv,
               lastLogits := ops.model (kv.take (c.n_past + n_eval)),
               n_past := c.n_past + n_eval }

/-- The `if (embd.size() > 0) { ... }` phase at the top of each loop
iteration (`binding.cpp:204-271`): rotate the context if needed, reuse a
matching session prefix, evaluate the rest in batches, append the evaluated
tokens to the session when a cache path is active, then clear `embd`. -/
def evalPhase (ops : Ops) (p : GptParams) (c0 : CoreState) : CoreState :=
  let c :=
    if c0.embd ≠ [] then
      let c := contextRotate ops c0
      let c := sessionReuse c
      let c := batchEvalGo ops p.n_batch c.embd.length c.embd c
      if c.embd ≠ [] ∧ c.path_session ≠ "" then
        let s := c.session_tokens ++ c.embd
        { c with session_tokens := s, n_session_consumed := s.length }
      else c
    else c0
  { c with embd := [] }

/-- The “optionally save the session on first sample” block
(`binding.cpp:293-298`). -/
def saveSite (p : GptParams) (c : CoreState) : CoreState :=
  if c.path_session ≠ "" ∧ c.need_to_save_session ∧ ¬ p.prompt_cache_ro then
    { c with need_to_save_session := false,
             saves := c.saves ++ [c.session_tokens] }
  else c

/-- The prompt-consumption inner loop (`binding.cpp:384-392`): move tokens
from `embd_inp` into `embd` (also pushing them through the last-N buffer)
until the batch is full or the input is exhausted. -/
def consumeGo (nBatch : Nat) : Nat → CoreState → CoreState
  | 0, c => c
  | fuel + 1, c =>
    if c.embd_inp.length > c.n_consumed then
      let tok := c.embd_inp.getD c.n_consumed 0
      let c := { c with
        embd := c.embd ++ [tok],
        last_n_tokens := c.last_n_tokens.drop 1 ++ [tok],
        n_consumed := c.n_consumed + 1 }
      if c.embd.length ≥ nBatch then c else consumeGo nBatch fuel c
    else c

/-- Search `last_output.find(antiprompt, search_start_pos) != std::string::npos`. -/
def stringFindFrom (hay pat : String) (start : Nat) : Bool :=
  (List.range (hay.length + 1)).any fun i =>
    decide (start ≤ i) && List.isPrefixOf pat.data (hay.data.drop i)

/-- Stop-sequence detection (`binding.cpp:400-421`): decode the last-N
buffer and search for each stop string near its tail, with two characters
of extra padding; a hit takes the `goto end` exit. -/
def antipromptCheck (ops : Ops) (p : GptParams) (c : CoreState) : CoreState :=
  if p.antiprompt ≠ [] then
    let last_output := String.join (c.last_n_tokens.map ops.tokenToStr)
    let hit := p.antiprompt.any fun anti =>
      let extra_padding := 2
      let search_start_pos :=
        if last_output.length > anti.length + extra_padding then
          last_output.length - (anti.length + extra_padding)
        else 0
      stringFindFrom last_output anti search_start_pos
    if hit then { c with finishedVia := some .antipromptHit } else c
  else c

/-- The common tail of a loop iteration (`binding.cpp:395-426`): accumulate
the decoded `embd` into `res`, run stop-sequence detection, and break on an
end-of-sequence token at the back of `embd`. -/
def commonTail (ops : Ops) (p : GptParams) (c : CoreState) : CoreState :=
  let c := { c with res := c.res ++ String.join (c.embd.map ops.tokenToStr) }
  let c := antipromptCheck ops p c
  if c.finishedVia = none ∧ c.embd ≠ [] ∧ c.embd.getLast? = some ops.eosTok then
    { c with finishedVia := some .eosHit }
  else c

/-- One iteration of the `while (n_remain != 0)` body of `llama_predict`. -/
def predictStep (ops : Ops) (p : GptParams) (st : PState) : PState :=
  let c := evalPhase ops p st.core
  if c.embd_inp.length ≤ c.n_consumed then
    let c := saveSite p c
    let out := sampleStep ops p c.last_n_tokens c.lastLogits st.statics st.rng
    let id := out.id
    let c := { c with
      last_n_tokens := c.last_n_tokens.drop 1 ++ [id],
      embd := [id],
      n_remain := c.n_remain - 1 }
    let token_str := ops.tokenToStr id
    let cbIndex := c.emitted.length
    let c := { c with emitted := c.emitted ++ [id] }
    let st' : PState :=
      { core := c, statics := out.statics, rng := out.rng,
        muLog1 := st.muLog1 ++ out.muUsed1.toList,
        muLog2 := st.muLog2 ++ out.muUsed2.toList }
    if ¬ ops.tokenCallback cbIndex token_str then
      { st' with core := { st'.core with finishedVia := some .callbackFalse } }
    else
      { st' with core := commonTail ops p st'.core }
  else
    { st with core := commonTail ops p (consumeGo p.n_batch c.embd_inp.length c) }

/-- The `while (n_remain != 0)` loop, fuel-bounded (the source loop can be
unbounded when `n_predict` is negative). -/
def predictLoop (ops : Ops) (p : GptParams) : Nat → PState → PState
  | 0, st => st
  | fuel + 1, st =>
    if st.core.finishedVia.isSome ∨ st.core.n_remain = 0 then st
    else predictLoop ops p fuel (predictStep ops p st)

/-- The prompt-similarity count (`binding.cpp:138-145`): the number of
leading session tokens that match `embd_inp`, capped at the prompt
length. -/
def matchingCountGo (embd_inp : List Token) : List Token → Nat → Nat
  | [], n => n
  | id :: rest, n =>
    if n ≥ embd_inp.length ∨ id ≠ embd_inp.getD n 0 then n
    else matchingCountGo embd_inp rest (n + 1)

def matchingCount (session embd_inp : List Token) : Nat :=
  matchingCountGo embd_inp session 0

/-- Result of the pre-loop setup of `llama_predict`. -/
structure InitOut where
  core : CoreState
  rng0 : Nat

/-- The session-file tokens visible to `llama_predict`: the file contents
when a prompt-cache path is configured and the file exists, loaded into a
buffer of capacity `n_ctx` (`binding.cpp:92-123`). -/
def loadedSessionTokens (ops : Ops) (sessionFile : Option (List Token))
    (p : GptParams) : List Token :=
  ((if p.path_prompt_cache ≠ "" then sessionFile else none).getD []).take
    ops.n_ctx

/-- The tokenised input (`binding.cpp:125-134`): when the prompt is
non-empty (or no session was loaded), a single space is prepended and the
result tokenised with BOS; otherwise the loaded session tokens are taken
verbatim. -/
def tokenizedPrompt (ops : Ops) (sessionFile : Option (List Token))
    (p : GptParams) : List Token :=
  let session_tokens := loadedSessionTokens ops sessionFile p
  if p.prompt ≠ "" ∨ session_tokens = [] then
    ops.tokenize true (" " ++ p.prompt)
  else session_tokens

/-- The pre-loop setup of `llama_predict` (`binding.cpp:82-200`): resolve
the seed, load the prompt-cache session file if configured and present
(which also reseeds the context RNG), tokenise the prompt with a single
leading space, compute the session/prompt match, force re-evaluation of
the last prompt token on a full-match longer cache, clamp `n_keep`, zero
the last-N buffer, and run the one-token BOS warm-up. -/
def llamaPredictInit (ops : Ops) (sessionFile : Option (List Token))
    (timeNow : Nat) (ctxRng0 : Nat) (p : GptParams) : InitOut :=
  let n_ctx := ops.n_ctx
  let seed : Int := if p.seed ≤ 0 then (timeNow : Int) else p.seed
  let loaded : Option (List Token) :=
    if p.path_prompt_cache ≠ "" then sessionFile else none
  let session_tokens := loadedSessionTokens ops sessionFile p
  let rng0 : Nat := if loaded.isSome then seed.toNat else ctxRng0
  let embd_inp := tokenizedPrompt ops sessionFile p
  let n_matching_session_tokens := matchingCount session_tokens embd_inp
  let session_tokens :=
    if embd_inp ≠ [] ∧ n_matching_session_tokens = embd_inp.length ∧
        session_tokens.length > embd_inp.length then
      session_tokens.take (embd_inp.length - 1)
    else session_tokens
  let n_keep : Nat :=
    if p.n_keep < 0 ∨ p.n_keep > (embd_inp.length : Int) then embd_inp.length
    else p.n_keep.toNat
  let need_to_save_session :=
    decide (p.path_prompt_cache ≠ "") &&
      decide (n_matching_session_tokens < embd_inp.length)
  -- warm-up: `llama_eval` of a single BOS token at position 0
  let kvLoaded := loadedSessionTokens ops sessionFile p
  let kv := [ops.bosTok] ++ kvLoaded.drop 1
  { core :=
    { n_past := 0, n_remain := p.n_predict, n_consumed := 0,
      n_session_consumed := 0, n_keep := n_keep, embd := [],
      embd_inp := embd_inp, session_tokens := session_tokens,
      last_n_tokens := List.replicate n_ctx 0, kv := kv,
      lastLogits := ops.model [ops.bosTok],
      path_session := p.path_prompt_cache,
      need_to_save_session := need_to_save_session, saves := [], res := "",
      emitted := [], finishedVia := none },
    rng0 := rng0 }

/-- The final prompt-cache save (`binding.cpp:429-437`), reached on normal
loop exit but jumped over by the stop-sequence `goto end`. -/
def finalSave (p : GptParams) (c : CoreState) : CoreState :=
  if c.path_session ≠ "" ∧ p.prompt_cache_all ∧ ¬ p.prompt_cache_ro then
    { c with saves := c.saves ++ [c.session_tokens] }
  else c

/-- Top level of `llama_predict` (`binding.cpp:78-451`): setup, generation loop, final
save.  `sessionFile` is the prompt-cache file contents (if the file
exists), `timeNow` models `time(NULL)`, `ctxRng0` the RNG state the
context was created with, and `statics0` the process-wide `mirostat_mu`
statics entering the call. -/
def llamaPredict (ops : Ops) (sessionFile : Option (List Token))
    (timeNow ctxRng0 : Nat) (p : GptParams) (statics0 : MuStatics)
    (fuel : Nat) : PState :=
  let init := llamaPredictInit ops sessionFile timeNow ctxRng0 p
  let st0 : PState :=
    { core := init.core, statics := statics0,
      muLog1 := [], muLog2 := [], rng := init.rng0 }
  let st := predictLoop ops p fuel st0
  if st.core.finishedVia = some .antipromptHit then st
  else if st.core.finishedVia.isSome ∨ st.core.n_remain = 0 then
    { st with core := finalSave p st.core }
  else st

/-- The standalone `eval` entry point (`binding.cpp:58-76`): tokenise the
text with BOS, fail with return code 1 when fewer than one token results,
otherwise return the `llama_eval` code (opaque, abstracted as 0). -/
def evalEntry (ops : Ops) (text : String) : Nat :=
  let tokens := ops.tokenize true text
  if tokens.length < 1 then 1 else 0

/-! ### The streaming router (`server/routes.go`) -/

/-- Modelled from the spec: `api.Options` (the sampling-option record bound
from JSON, not under `src/`) is a record of option keys with Go zero
values; we model it as a finite map from an abstract key type to integers,
with `0` standing for the Go zero value of the field ("empty" in mergo's
sense). -/
def OptionsRec (κ : Type) := κ → ℤ

/-- Modelled from the spec: `mergo.Merge(&dst, src, mergo.WithOverride)`
(third-party) overwrites each destination field with the source field
whenever the source field is non-empty (non-zero), and leaves the
destination field otherwise. -/
def mergoMergeOverride {κ : Type} (dst src : OptionsRec κ) : OptionsRec κ :=
  fun k => if src k = 0 then dst k else src k

/-- The effective options computed when `GenerateHandler` loads a new
session (`routes.go:56-65`): start from `api.DefaultOptions()`, merge the
model's stored options with override, then merge the request's options
with override. -/
def effectiveOptions {κ : Type} (defaults modelOpts reqOpts : OptionsRec κ) :
    OptionsRec κ :=
  mergoMergeOverride (mergoMergeOverride defaults modelOpts) reqOpts

/-- The process-wide `activeSession` variable (`routes.go:27-30`): a session
id and, when loaded, the model path and options the LLM was created
with. -/
structure ActiveSession (κ : Type) where
  id : Int
  llm : Option (String × OptionsRec κ)

/-- The part of an `api.GenerateRequest` that drives the session decision. -/
structure GenRequest (κ : Type) where
  sessionID : Int
  model : String
  options : OptionsRec κ

/-- The resolved model (`GetModel`): its weights path and stored options. -/
structure ModelResolved (κ : Type) where
  modelPath : String
  options : OptionsRec κ

/-- Outcome of the session block of `GenerateHandler`. -/
structure SessionDecision (κ : Type) where
  session : ActiveSession κ
  reloaded : Bool
  closedOld : Bool

/-- The session block of `GenerateHandler` (`routes.go:50-75`): when the
request's `SessionID` is zero or differs from the active session's id,
close the current LLM (if any), compute the effective options, load a new
LLM from the resolved model's path, and stamp a fresh session id;
otherwise leave the active session untouched. -/
def generateSessionUpdate {κ : Type} (defaults : OptionsRec κ)
    (st : ActiveSession κ) (req : GenRequest κ) (model : ModelResolved κ)
    (now : Int) : SessionDecision κ :=
  if req.sessionID = 0 ∨ req.sessionID ≠ st.id then
    let opts := effectiveOptions defaults model.options req.options
    { session := { id := now, llm := some (model.modelPath, opts) },
      reloaded := true, closedOld := st.llm.isSome }
  else
    { session := st, reloaded := false, closedOld := false }

/-- The CORS configuration of `Serve` (`routes.go:270-286`): a hardcoded
list of http/https origins for `localhost` and `127.0.0.1`, bare and with
an any-port wildcard.  The function takes the process environment to state
that the configuration does not depend on it. -/
def serveAllowOrigins (_env : String → Option String) : List String :=
  ["http://localhost", "http://localhost:*",
   "https://localhost", "https://localhost:*",
   "http://127.0.0.1", "http://127.0.0.1:*",
   "https://127.0.0.1", "https://127.0.0.1:*"]

/-- Splitting of a character list at every occurrence of `sep`
(structural, so that witnesses can be evaluated by the kernel). -/
def splitListOn (sep : Char) : List Char → List (List Char)
  | [] => [[]]
  | x :: xs =>
    match splitListOn sep xs with
    | [] => [[]]
    | h :: t => if x = sep then [] :: h :: t else (x :: h) :: t

/-- The suffix following the first occurrence of `sep`, or `[]` when `sep`
does not occur. -/
def dropThroughSep (sep : List Char) : List Char → List Char
  | [] => []
  | x :: xs =>
    if List.isPrefixOf sep (x :: xs) then (x :: xs).drop sep.length
    else dropThroughSep sep xs

/-- Modelled from the spec: `gin-contrib/cors` with `AllowWildcard` treats
a single `*` in an allowed origin as matching any substring; a pattern
without `*` must match exactly. -/
def wildcardMatchData (pattern origin : List Char) : Bool :=
  match splitListOn '*' pattern with
  | [p] => decide (origin = p)
  | [pre, post] =>
      decide (pre.length + post.length ≤ origin.length) &&
        List.isPrefixOf pre origin &&
        List.isPrefixOf post.reverse origin.reverse
  | _ => false

def wildcardMatch (pattern origin : String) : Bool :=
  wildcardMatchData pattern.data origin.data

/-- Whether `Serve`'s CORS layer accepts a request `Origin` header. -/
def originAllowed (env : String → Option String) (origin : String) : Bool :=
  (serveAllowOrigins env).any fun pat => wildcardMatch pat origin

/-- The allowed-origin predicate as worded by the specification (§4.6 CORS /
claim C8): the loopback hosts `127.0.0.1` and `localhost` on any scheme and
any port by default, extended by the origin patterns listed in the
`OLLAMA_ORIGINS` environment variable. -/
def claimedOriginAllowed (env : String → Option String) (origin : String) :
    Bool :=
  let host := (dropThroughSep "://".data origin.data).takeWhile fun c => c ≠ ':'
  decide (host = "127.0.0.1".data) || decide (host = "localhost".data) ||
    (splitListOn ',' ((env "OLLAMA_ORIGINS").getD "").data).any
      fun pat => wildcardMatchData pat origin.data

/-! ### Concrete instances used by witnesses and counterexamples -/

/-- A small concrete native surface: two-token vocabulary, constant
tokeniser, identity samplers, a mirostat sampler that returns `mu + 1` so
the evolution of the static is observable. -/
def witnessOps : Ops where
  n_ctx := 4
  n_vocab := 2
  tokenize := fun _ _ => [1]
  model := fun _ => [0, 1]
  tokenToStr := fun _ => "t"
  eosTok := 99
  bosTok := 0
  nlTok := 0
  sampleRepetitionPenalty := fun c _ _ => c
  sampleFreqPresPenalties := fun c _ _ _ => c
  sampleTopK := fun c _ _ => c
  sampleTailFree := fun c _ _ => c
  sampleTypical := fun c _ _ => c
  sampleTopP := fun c _ _ => c
  sampleTemperature := fun c _ => c
  sampleGreedy := fun _ => 42
  sampleMirostat := fun _ _ _ _ mu => (0, mu + 1)
  sampleMirostatV2 := fun _ _ _ mu => (1, mu + 2)
  sampleToken := fun _ r => (7, r + 1)
  tokenCallback := fun _ _ => true

/-- A tokeniser that produces zero tokens for every input. -/
def zeroTokOps : Ops :=
  { witnessOps with
    tokenize := fun _ _ => []
    n_vocab := 1
    model := fun _ => [0] }

/-- A tokeniser under which the prompt `"x"` tokenises to `[5, 7]`. -/
def cacheOps : Ops :=
  { witnessOps with tokenize := fun _ s => if s = " x" then [5, 7] else [9] }

/-- Parameters selecting the Mirostat v1 branch with `tau = 3` and a
one-token budget. -/
def miroParams : GptParams where
  seed := 42
  n_threads := 1
  n_predict := 1
  repeat_last_n := 0
  top_k := 40
  top_p := 1
  tfs_z := 1
  typical_p := 1
  temp := 1
  repeat_penalty := 1
  presence_penalty := 0
  frequency_penalty := 0
  mirostat := 1
  mirostat_tau := 3
  mirostat_eta := 1
  penalize_nl := true
  n_batch := 1
  n_keep := 0
  antiprompt := []
  logit_bias := []
  path_prompt_cache := ""
  prompt_cache_all := false
  prompt_cache_ro := false
  prompt := "a"

/-- Greedy parameters (`temp = 0`) with a three-token budget. -/
def greedyParams : GptParams :=
  { miroParams with temp := 0, mirostat := 0, n_predict := 3 }

/-- Greedy parameters with the non-empty prompt `"x"`. -/
def zeroTokParams : GptParams :=
  { miroParams with temp := 0, mirostat := 0, prompt := "x" }

/-- Parameters with a configured prompt-cache path and prompt `"x"`. -/
def cacheParams : GptParams :=
  { miroParams with prompt := "x", path_prompt_cache := "cache.bin" }

/-- An environment that sets `OLLAMA_ORIGINS=https://example.com`. -/
def envWithOrigins : String → Option String :=
  fun k => if k = "OLLAMA_ORIGINS" then some "https://example.com" else none

/-- An active session loaded from `"model-a-path"` with id 5. -/
def sessionA : ActiveSession Nat :=
  { id := 5, llm := some ("model-a-path", fun _ => 0) }

/-- A request carrying the matching session id 5 but a different model. -/
def reqB : GenRequest Nat :=
  { sessionID := 5, model := "model-b", options := fun _ => 0 }

/-- The resolved model of `reqB`. -/
def modelB : ModelResolved Nat :=
  { modelPath := "model-b-path", options := fun _ => 0 }

/-- Concrete option records for the precedence witness. -/
def wDefaults : OptionsRec Nat := fun _ => 1

def wModel : OptionsRec Nat := fun k => if k = 0 then 2 else 0

def wReq : OptionsRec Nat := fun k => if k = 2 then 3 else 0

/-- A loop state about to overflow a 4-token context window (`n_past = 4`,
one pending token, `n_keep = 1`), used to witness the rotation theorem. -/
def rotCore : CoreState where
  n_past := 4
  n_remain := 5
  n_consumed := 0
  n_session_consumed := 0
  n_keep := 1
  embd := [8]
  embd_inp := []
  session_tokens := []
  last_n_tokens := [1, 2, 3, 4]
  kv := [1, 2, 3, 4]
  lastLogits := [0, 1]
  path_session := "cache.bin"
  need_to_save_session := false
  saves := []
  res := ""
  emitted := []
  finishedVia := none

end Ollama

namespace Ollama

/-! ### Theorems -/

/-- C10: whenever a generate request loads a new session, the effective
options are the built-in defaults overridden by the model's stored options
overridden by the request's options: for every option key, a (non-empty)
request value takes precedence over the model's, which takes precedence
over the default. -/
theorem options_precedence {κ : Type} (defaults modelOpts reqOpts : OptionsRec κ)
    (k : κ) :
    (reqOpts k ≠ 0 → effectiveOptions defaults modelOpts reqOpts k = reqOpts k) ∧
    (reqOpts k = 0 → modelOpts k ≠ 0 →
      effectiveOptions defaults modelOpts reqOpts k = modelOpts k) ∧
    (reqOpts k = 0 → modelOpts k = 0 →
      effectiveOptions defaults modelOpts reqOpts k = defaults k) := by
  unfold effectiveOptions mergoMergeOverride
  refine ⟨fun h => ?_, fun h1 h2 => ?_, fun h1 h2 => ?_⟩
  · simp [h]
  · simp [h1, h2]
  · simp [h1, h2]

theorem options_precedence_witness :
    (effectiveOptions wDefaults wModel wReq 2 = wReq 2) ∧
    (effectiveOptions wDefaults wModel wReq 0 = wModel 0) ∧
    (effectiveOptions wDefaults wModel wReq 1 = wDefaults 1) :=
  ⟨(options_precedence wDefaults wModel wReq 2).1 (by decide),
   (options_precedence wDefaults wModel wReq 0).2.1 (by decide) (by decide),
   (options_precedence wDefaults wModel wReq 1).2.2 (by decide) (by decide)⟩

/-- C8 counterexample: with `OLLAMA_ORIGINS=https://example.com` the
specification's allowed-origin predicate accepts `https://example.com`,
but the server's CORS configuration (a hardcoded list that never consults
the environment) rejects it. -/
theorem cors_env_var_counterexample :
    claimedOriginAllowed envWithOrigins "https://example.com" = true ∧
    originAllowed envWithOrigins "https://example.com" = false := by decide

/-- C8 (amended): the allowed CORS origin patterns are independent of the
environment and are exactly the http/https entries for `localhost` and
`127.0.0.1`, each bare and with an any-port wildcard; `OLLAMA_ORIGINS` is
not consulted. -/
theorem cors_origins_fixed (env env' : String → Option String) :
    serveAllowOrigins env = serveAllowOrigins env' ∧
    ∀ o : String, o ∈ serveAllowOrigins env ↔
      ∃ sch, sch ∈ (["http", "https"] : List String) ∧
        ∃ host, host ∈ (["localhost", "127.0.0.1"] : List String) ∧
          (o = sch ++ "://" ++ host ∨ o = sch ++ "://" ++ host ++ ":*") := by
  refine ⟨rfl, fun o => ⟨fun h => ?_, fun h => ?_⟩⟩
  · simp only [serveAllowOrigins, List.mem_cons, List.not_mem_nil, or_false] at h
    rcases h with h | h | h | h | h | h | h | h <;> subst h
    · exact ⟨"http", by decide, "localhost", by decide, Or.inl (by decide)⟩
    · exact ⟨"http", by decide, "localhost", by decide, Or.inr (by decide)⟩
    · exact ⟨"https", by decide, "localhost", by decide, Or.inl (by decide)⟩
    · exact ⟨"https", by decide, "localhost", by decide, Or.inr (by decide)⟩
    · exact ⟨"http", by decide, "127.0.0.1", by decide, Or.inl (by decide)⟩
    · exact ⟨"http", by decide, "127.0.0.1", by decide, Or.inr (by decide)⟩
    · exact ⟨"https", by decide, "127.0.0.1", by decide, Or.inl (by decide)⟩
    · exact ⟨"https", by decide, "127.0.0.1", by decide, Or.inr (by decide)⟩
  · obtain ⟨sch, hs, host, hh, ho⟩ := h
    fin_cases hs <;> fin_cases hh <;> rcases ho with ho | ho <;> subst ho <;>
      simp only [serveAllowOrigins] <;> decide

/-- C2 counterexample: with an active session loaded from
`"model-a-path"` under id 5, a request carrying session id 5 but the
different model `model-b` is served without any reload: the old session is
kept even though the models differ. -/
theorem session_model_mismatch_counterexample :
    (generateSessionUpdate (fun _ => 0) sessionA reqB modelB 99).reloaded = false ∧
    ((generateSessionUpdate (fun _ => 0) sessionA reqB modelB 99).session.llm.map
      Prod.fst) = some "model-a-path" ∧
    modelB.modelPath ≠ "model-a-path" := by
  refine ⟨by decide, by decide, by decide⟩

/-- C2 (amended): session reuse is keyed solely on the session id — a
non-zero `session_id` equal to the active session's id reuses the loaded
session unchanged, whatever model the request names; otherwise the current
session (if any) is closed and a new one is loaded from the requested
model with the merged options and a fresh id. -/
theorem generate_session_affinity {κ : Type} (defaults : OptionsRec κ)
    (st : ActiveSession κ) (req : GenRequest κ) (model : ModelResolved κ)
    (now : Int) :
    (req.sessionID ≠ 0 → req.sessionID = st.id →
      generateSessionUpdate defaults st req model now =
        { session := st, reloaded := false, closedOld := false }) ∧
    (req.sessionID = 0 ∨ req.sessionID ≠ st.id →
      generateSessionUpdate defaults st req model now =
        { session := { id := now, llm := some (model.modelPath,
            effectiveOptions defaults model.options req.options) },
          reloaded := true, closedOld := st.llm.isSome }) := by
  constructor
  · intro h1 h2
    unfold generateSessionUpdate
    rw [if_neg]
    push_neg
    exact ⟨h1, h2⟩
  · intro h
    unfold generateSessionUpdate
    rw [if_pos h]

theorem generate_session_affinity_witness :
    (generateSessionUpdate (fun _ => (0 : ℤ)) sessionA reqB modelB 99 =
      { session := sessionA, reloaded := false, closedOld := false }) ∧
    (generateSessionUpdate (fun _ => (0 : ℤ)) sessionA
        { reqB with sessionID := 0 } modelB 99 =
      { session := { id := 99, llm := some (modelB.modelPath,
          effectiveOptions (fun _ => 0) modelB.options reqB.options) },
        reloaded := true, closedOld := sessionA.llm.isSome }) :=
  ⟨(generate_session_affinity (fun _ => 0) sessionA reqB modelB 99).1
      (by decide) (by decide),
   (generate_session_affinity (fun _ => 0) sessionA
      { reqB with sessionID := 0 } modelB 99).2 (Or.inl rfl)⟩

/-- C6 counterexample: with a loaded cache of `[5, 7]` and a prompt that
tokenises to `[5, 7]`, the cache matches the prompt exactly over its full
length, yet the cached sequence is left untouched (no truncation, so the
final prompt token is not re-evaluated): the source requires the cache to
be strictly longer than the prompt. -/
theorem cache_exact_match_counterexample :
    tokenizedPrompt cacheOps (some [5, 7]) cacheParams = [5, 7] ∧
    matchingCount (loadedSessionTokens cacheOps (some [5, 7]) cacheParams)
        (tokenizedPrompt cacheOps (some [5, 7]) cacheParams) =
      (tokenizedPrompt cacheOps (some [5, 7]) cacheParams).length ∧
    (llamaPredictInit cacheOps (some [5, 7]) 0 0 cacheParams).core.session_tokens
      = [5, 7] ∧
    ([5, 7] : List Token) ≠ ([5, 7] : List Token).take (2 - 1) := by
  refine ⟨by decide, by decide, by decide, by decide⟩

/-- C6 (amended): when the loaded cache matches the tokenised prompt over
the prompt's full length AND the cache is strictly longer than the prompt,
the cached sequence is truncated to the prompt length minus one, forcing
re-evaluation of the final prompt token. -/
theorem cache_full_match_truncation (ops : Ops) (sf : Option (List Token))
    (t r : Nat) (p : GptParams)
    (h1 : tokenizedPrompt ops sf p ≠ [])
    (h2 : matchingCount (loadedSessionTokens ops sf p) (tokenizedPrompt ops sf p) =
      (tokenizedPrompt ops sf p).length)
    (h3 : (loadedSessionTokens ops sf p).length > (tokenizedPrompt ops sf p).length) :
    (llamaPredictInit ops sf t r p).core.session_tokens =
      (loadedSessionTokens ops sf p).take ((tokenizedPrompt ops sf p).length - 1) := by
  unfold llamaPredictInit
  simp [h1, h2, h3]

theorem cache_full_match_truncation_witness :
    tokenizedPrompt cacheOps (some [5, 7, 9]) cacheParams ≠ [] ∧
    (llamaPredictInit cacheOps (some [5, 7, 9]) 0 0 cacheParams).core.session_tokens
      = (loadedSessionTokens cacheOps (some [5, 7, 9]) cacheParams).take
          ((tokenizedPrompt cacheOps (some [5, 7, 9]) cacheParams).length - 1) :=
  ⟨by decide,
   cache_full_match_truncation cacheOps (some [5, 7, 9]) 0 0 cacheParams
    (by decide) (by decide) (by decide)⟩

/-- C7 counterexample: under a tokeniser that yields zero tokens for the
non-empty prompt `"x"`, `llama_predict` does not fail — it proceeds to the
sampling loop and emits a token. -/
theorem zero_token_predict_counterexample :
    zeroTokOps.tokenize true (" " ++ zeroTokParams.prompt) = [] ∧
    (llamaPredict zeroTokOps none 0 0 zeroTokParams ⟨none, none⟩ 8).core.emitted
      = [42] := by
  refine ⟨by decide, by decide⟩

/-- C7 (amended): `llama_predict` prepends exactly one space to a
non-empty prompt before tokenising; the fewer-than-one-token failure
(return code 1) is enforced by the separate `eval` entry point, not by
`llama_predict`. -/
theorem prompt_space_and_tokenise_check (ops : Ops) (sf : Option (List Token))
    (t r : Nat) (p : GptParams) (text : String) :
    (p.prompt ≠ "" →
      (llamaPredictInit ops sf t r p).core.embd_inp =
        ops.tokenize true (" " ++ p.prompt)) ∧
    ((ops.tokenize true text).length < 1 → evalEntry ops text = 1) := by
  constructor
  · intro h
    unfold llamaPredictInit tokenizedPrompt
    simp [h]
  · intro h
    unfold evalEntry
    simp [h]

theorem prompt_space_and_tokenise_check_witness :
    (zeroTokParams.prompt ≠ "" ∧
      (llamaPredictInit cacheOps none 0 0 cacheParams).core.embd_inp =
        cacheOps.tokenize true (" " ++ cacheParams.prompt)) ∧
    ((zeroTokOps.tokenize true " q").length < 1 ∧ evalEntry zeroTokOps " q" = 1) :=
  ⟨⟨by decide,
    (prompt_space_and_tokenise_check cacheOps none 0 0 cacheParams " q").1 (by decide)⟩,
   ⟨by decide,
    (prompt_space_and_tokenise_check zeroTokOps none 0 0 cacheParams " q").2 (by decide)⟩⟩

/-- C4 counterexample: a first predict call under Mirostat v1 with
`tau = 3` leaves the function-local static `mirostat_mu` at 7; a second
call in the same process then hands `mu = 7` — not `2·tau = 6` — to its
first Mirostat sampling: the running `mu` persists across predict calls
and is not reinitialised per call. -/
theorem mirostat_mu_persists_counterexample :
    (llamaPredict witnessOps none 0 0 miroParams ⟨none, none⟩ 8).statics.mu1
      = some 7 ∧
    (llamaPredict witnessOps none 0 0 miroParams
      (llamaPredict witnessOps none 0 0 miroParams ⟨none, none⟩ 8).statics
      8).muLog1 = [7] ∧
    (7 : FloatV) ≠ 2 * miroParams.mirostat_tau := by
  refine ⟨by decide, by decide, by decide⟩

/-- C3: the per-step sampling of the generation loop equals the
specification's description — repetition penalty over the last
`repeat_last_n` tokens, then frequency and presence penalties, then greedy
argmax when `temperature ≤ 0`, else temperature scaling and Mirostat v1/v2
when `mirostat` is 1 or 2, else the
top-k → tail-free → typical → top-p → temperature → categorical pipeline
(stated under the loop invariant that the last-N buffer is no longer than
the context window, which `llama_predict` maintains). -/
theorem sampling_pipeline_order (ops : Ops) (p : GptParams) (lastN : List Token)
    (logits0 : List FloatV) (st : MuStatics) (rng : Nat)
    (h : lastN.length ≤ ops.n_ctx) :
    sampleStep ops p lastN logits0 st rng = sampleStepSpec ops p lastN logits0 st rng := by
  have e1 : ∀ rln : Nat,
      lastN.length - min (min lastN.length rln) ops.n_ctx = lastN.length - rln :=
    fun rln => by omega
  unfold sampleStep sampleStepSpec penalizedCandidates
  simp only [e1]
  by_cases h1 : p.temp ≤ 0
  · simp [h1]
  · by_cases h2 : p.mirostat = 1
    · simp [h1, h2]
    · by_cases h3 : p.mirostat = 2
      · simp [h1, h2, h3]
      · simp [h1, h2, h3]

theorem sampling_pipeline_order_witness :
    ([0, 0] : List Token).length ≤ witnessOps.n_ctx ∧
    sampleStep witnessOps miroParams [0, 0] [0, 1] ⟨none, none⟩ 0 =
      sampleStepSpec witnessOps miroParams [0, 0] [0, 1] ⟨none, none⟩ 0 :=
  ⟨by decide,
   sampling_pipeline_order witnessOps miroParams [0, 0] [0, 1] ⟨none, none⟩ 0
    (by decide)⟩

/-- With `temp ≤ 0` the sampling block takes the greedy branch: it never
reads the RNG or the mirostat statics and leaves both unchanged. -/
lemma sampleStep_greedy (ops : Ops) (p : GptParams) (h : p.temp ≤ 0)
    (lastN : List Token) (logits0 : List FloatV) (st : MuStatics) (rng : Nat) :
    sampleStep ops p lastN logits0 st rng =
      { id := ops.sampleGreedy (penalizedCandidates ops p lastN logits0),
        statics := st, rng := rng, muUsed1 := none, muUsed2 := none } := by
  unfold sampleStep
  simp [h]

/-- With `temp ≤ 0`, one loop iteration's effect on the core state does not
depend on the RNG cell, the mirostat statics or the observation logs. -/
lemma predictStep_core_rand_indep (ops : Ops) (p : GptParams) (h : p.temp ≤ 0)
    (c : CoreState) (s1 s2 : MuStatics) (a1 b1 a2 b2 : List FloatV)
    (r1 r2 : Nat) :
    (predictStep ops p ⟨c, s1, a1, b1, r1⟩).core =
      (predictStep ops p ⟨c, s2, a2, b2, r2⟩).core := by
  unfold predictStep
  simp only [sampleStep_greedy ops p h]
  by_cases hA : (evalPhase ops p c).embd_inp.length ≤ (evalPhase ops p c).n_consumed
  · simp only [if_pos hA]
    by_cases hB : ops.tokenCallback (saveSite p (evalPhase ops p c)).emitted.length
        (ops.tokenToStr (ops.sampleGreedy (penalizedCandidates ops p
          (saveSite p (evalPhase ops p c)).last_n_tokens
          (saveSite p (evalPhase ops p c)).lastLogits))) = true
    · simp [hB]
    · simp [hB]
  · simp only [if_neg hA]

/-- Changing only the `seed` field of the parameter block does not change a
loop iteration: the step never reads `params->seed`. -/
lemma predictStep_seed_eq (ops : Ops) (p : GptParams) (s : Int) (st : PState) :
    predictStep ops { p with seed := s } st = predictStep ops p st := rfl

/-- With `temp ≤ 0`, the whole loop's core state does not depend on the RNG
cell, the mirostat statics, the observation logs or the RNG seed field. -/
lemma predictLoop_core_rand_indep (ops : Ops) (p : GptParams) (h : p.temp ≤ 0)
    (s2 : Int) :
    ∀ (fuel : Nat) (c : CoreState) (m1 : MuStatics) (a1 b1 : List FloatV)
      (r1 : Nat) (m2 : MuStatics) (a2 b2 : List FloatV) (r2 : Nat),
      (predictLoop ops p fuel ⟨c, m1, a1, b1, r1⟩).core =
        (predictLoop ops { p with seed := s2 } fuel ⟨c, m2, a2, b2, r2⟩).core := by
  intro fuel
  induction fuel with
  | zero => intro c m1 a1 b1 r1 m2 a2 b2 r2; rfl
  | succ n ih =>
    intro c m1 a1 b1 r1 m2 a2 b2 r2
    unfold predictLoop
    by_cases hstop : c.finishedVia.isSome ∨ c.n_remain = 0
    · simp only [if_pos hstop]
    · simp only [if_neg hstop]
      rw [predictStep_seed_eq]
      have hcore := predictStep_core_rand_indep ops p h c m1 m2 a1 b1 a2 b2 r1 r2
      calc (predictLoop ops p n (predictStep ops p ⟨c, m1, a1, b1, r1⟩)).core
          = (predictLoop ops p n
              ⟨(predictStep ops p ⟨c, m1, a1, b1, r1⟩).core,
               (predictStep ops p ⟨c, m1, a1, b1, r1⟩).statics,
               (predictStep ops p ⟨c, m1, a1, b1, r1⟩).muLog1,
               (predictStep ops p ⟨c, m1, a1, b1, r1⟩).muLog2,
               (predictStep ops p ⟨c, m1, a1, b1, r1⟩).rng⟩).core := rfl
        _ = (predictLoop ops p n
              ⟨(predictStep ops p ⟨c, m2, a2, b2, r2⟩).core,
               (predictStep ops p ⟨c, m1, a1, b1, r1⟩).statics,
               (predictStep ops p ⟨c, m1, a1, b1, r1⟩).muLog1,
               (predictStep ops p ⟨c, m1, a1, b1, r1⟩).muLog2,
               (predictStep ops p ⟨c, m1, a1, b1, r1⟩).rng⟩).core := by
            rw [hcore]
        _ = (predictLoop ops { p with seed := s2 } n
              ⟨(predictStep ops p ⟨c, m2, a2, b2, r2⟩).core,
               (predictStep ops p ⟨c, m2, a2, b2, r2⟩).statics,
               (predictStep ops p ⟨c, m2, a2, b2, r2⟩).muLog1,
               (predictStep ops p ⟨c, m2, a2, b2, r2⟩).muLog2,
               (predictStep ops p ⟨c, m2, a2, b2, r2⟩).rng⟩).core := by
            exact ih _ _ _ _ _ _ _ _ _
        _ = (predictLoop ops { p with seed := s2 } n
              (predictStep ops p ⟨c, m2, a2, b2, r2⟩)).core := rfl

/-- The emitted token list survives the final prompt-cache save stage
untouched (the save only appends to `saves`). -/
lemma llamaPredict_emitted (ops : Ops) (sf : Option (List Token))
    (t r : Nat) (p : GptParams) (m : MuStatics) (fuel : Nat) :
    (llamaPredict ops sf t r p m fuel).core.emitted =
      (predictLoop ops p fuel
        { core := (llamaPredictInit ops sf t r p).core, statics := m,
          muLog1 := [], muLog2 := [],
          rng := (llamaPredictInit ops sf t r p).rng0 }).core.emitted := by
  unfold llamaPredict finalSave
  dsimp only
  split
  · rfl
  · split
    · split <;> rfl
    · rfl

/-- C9: with `temperature ≤ 0` the generation loop is greedy and
deterministic — for the same prompt, options, model and cache state, the
emitted token sequence is independent of the RNG seed, of `time(NULL)`, of
the context RNG state and of the persisted mirostat statics, so two
successive predict calls produce identical token sequences. -/
theorem greedy_determinism (ops : Ops) (sf : Option (List Token))
    (p : GptParams) (fuel : Nat) (t1 r1 t2 r2 : Nat) (s1 s2 : Int)
    (m1 m2 : MuStatics) (h : p.temp ≤ 0) :
    (llamaPredict ops sf t1 r1 { p with seed := s1 } m1 fuel).core.emitted =
      (llamaPredict ops sf t2 r2 { p with seed := s2 } m2 fuel).core.emitted := by
  rw [llamaPredict_emitted, llamaPredict_emitted]
  exact congrArg CoreState.emitted
    (predictLoop_core_rand_indep ops { p with seed := s1 } h s2 fuel
      (llamaPredictInit ops sf t1 r1 { p with seed := s1 }).core
      m1 [] [] (llamaPredictInit ops sf t1 r1 { p with seed := s1 }).rng0
      m2 [] [] (llamaPredictInit ops sf t2 r2 { p with seed := s2 }).rng0)

theorem greedy_determinism_witness :
    greedyParams.temp ≤ 0 ∧
    (llamaPredict witnessOps none 11 22 { greedyParams with seed := 1 }
        ⟨none, none⟩ 20).core.emitted =
      (llamaPredict witnessOps none 33 44 { greedyParams with seed := -5 }
        ⟨some 9, none⟩ 20).core.emitted :=
  ⟨by decide,
   greedy_determinism witnessOps none greedyParams 20 11 22 33 44 1 (-5)
    ⟨none, none⟩ ⟨some 9, none⟩ (by decide)⟩

/-! Saving and `path_session` bookkeeping, used for the rotation claim:
once `path_session` is empty it stays empty and no component of the loop
ever appends to `saves` again. -/

lemma contextRotate_saves (ops : Ops) (c : CoreState) :
    (contextRotate ops c).saves = c.saves := by
  unfold contextRotate
  split <;> rfl

lemma contextRotate_path (ops : Ops) (c : CoreState)
    (h : c.path_session = "") : (contextRotate ops c).path_session = "" := by
  unfold contextRotate
  split <;> simp [h]

lemma sessionReuse_saves (c : CoreState) :
    (sessionReuse c).saves = c.saves := by
  unfold sessionReuse
  split <;> rfl

lemma sessionReuse_path (c : CoreState) :
    (sessionReuse c).path_session = c.path_session := by
  unfold sessionReuse
  split <;> rfl

lemma batchEvalGo_saves (ops : Ops) (nB : Nat) :
    ∀ (fuel : Nat) (pending : List Token) (c : CoreState),
      (batchEvalGo ops nB fuel pending c).saves = c.saves := by
  intro fuel
  induction fuel with
  | zero => intro pending c; rfl
  | succ n ih =>
    intro pending c
    cases pending with
    | nil => rfl
    | cons t ts =>
      unfold batchEvalGo
      rw [ih]

lemma batchEvalGo_path (ops : Ops) (nB : Nat) :
    ∀ (fuel : Nat) (pending : List Token) (c : CoreState),
      (batchEvalGo ops nB fuel pending c).path_session = c.path_session := by
  intro fuel
  induction fuel with
  | zero => intro pending c; rfl
  | succ n ih =>
    intro pending c
    cases pending with
    | nil => rfl
    | cons t ts =>
      unfold batchEvalGo
      rw [ih]

lemma evalPhase_saves (ops : Ops) (p : GptParams) (c : CoreState) :
    (evalPhase ops p c).saves = c.saves := by
  unfold evalPhase
  dsimp only
  split
  · split <;>
      simp [batchEvalGo_saves, sessionReuse_saves, contextRotate_saves]
  · rfl

lemma evalPhase_path (ops : Ops) (p : GptParams) (c : CoreState)
    (h : c.path_session = "") : (evalPhase ops p c).path_session = "" := by
  unfold evalPhase
  dsimp only
  split
  · split <;>
      simp [batchEvalGo_path, sessionReuse_path, contextRotate_path ops c h]
  · exact h

lemma saveSite_of_path_empty (p : GptParams) (c : CoreState)
    (h : c.path_session = "") : saveSite p c = c := by
  unfold saveSite
  rw [if_neg]
  simp [h]

lemma consumeGo_saves (nB : Nat) :
    ∀ (fuel : Nat) (c : CoreState), (consumeGo nB fuel c).saves = c.saves := by
  intro fuel
  induction fuel with
  | zero => intro c; rfl
  | succ n ih =>
    intro c
    unfold consumeGo
    dsimp only
    split
    · split
      · rfl
      · rw [ih]
    · rfl

lemma consumeGo_path (nB : Nat) :
    ∀ (fuel : Nat) (c : CoreState),
      (consumeGo nB fuel c).path_session = c.path_session := by
  intro fuel
  induction fuel with
  | zero => intro c; rfl
  | succ n ih =>
    intro c
    unfold consumeGo
    dsimp only
    split
    · split
      · rfl
      · rw [ih]
    · rfl

lemma antipromptCheck_saves (ops : Ops) (p : GptParams) (c : CoreState) :
    (antipromptCheck ops p c).saves = c.saves := by
  unfold antipromptCheck
  dsimp only
  split
  · split <;> rfl
  · rfl

lemma antipromptCheck_path (ops : Ops) (p : GptParams) (c : CoreState) :
    (antipromptCheck ops p c).path_session = c.path_session := by
  unfold antipromptCheck
  dsimp only
  split
  · split <;> rfl
  · rfl

lemma commonTail_saves (ops : Ops) (p : GptParams) (c : CoreState) :
    (commonTail ops p c).saves = c.saves := by
  unfold commonTail
  dsimp only
  split <;> simp [antipromptCheck_saves]

lemma commonTail_path (ops : Ops) (p : GptParams) (c : CoreState) :
    (commonTail ops p c).path_session = c.path_session := by
  unfold commonTail
  dsimp only
  split <;> simp [antipromptCheck_path]

/-- Once `path_session` is empty, a loop iteration neither saves the
session file nor resurrects the path. -/
lemma predictStep_no_save (ops : Ops) (p : GptParams) (st : PState)
    (h : st.core.path_session = "") :
    (predictStep ops p st).core.saves = st.core.saves ∧
    (predictStep ops p st).core.path_session = "" := by
  have hEs := evalPhase_saves ops p st.core
  have hEp := evalPhase_path ops p st.core h
  unfold predictStep
  dsimp only
  rw [saveSite_of_path_empty p (evalPhase ops p st.core) hEp]
  split
  · split
    · exact ⟨hEs, hEp⟩
    · constructor
      · rw [commonTail_saves]
        exact hEs
      · rw [commonTail_path]
        exact hEp
  · constructor
    · rw [commonTail_saves, consumeGo_saves]
      exact hEs
    · rw [commonTail_path, consumeGo_path]
      exact hEp

/-- Once `path_session` is empty, the remainder of the loop performs no
session-file save. -/
lemma predictLoop_no_save (ops : Ops) (p : GptParams) :
    ∀ (fuel : Nat) (st : PState), st.core.path_session = "" →
      (predictLoop ops p fuel st).core.saves = st.core.saves ∧
      (predictLoop ops p fuel st).core.path_session = "" := by
  intro fuel
  induction fuel with
  | zero => intro st h; exact ⟨rfl, h⟩
  | succ n ih =>
    intro st h
    unfold predictLoop
    split
    · exact ⟨rfl, h⟩
    · have hstep := predictStep_no_save ops p st h
      have hrec := ih (predictStep ops p st) hstep.2
      exact ⟨hrec.1.trans hstep.1, hrec.2⟩

lemma finalSave_of_path_empty (p : GptParams) (c : CoreState)
    (h : c.path_session = "") : finalSave p c = c := by
  unfold finalSave
  rw [if_neg]
  simp [h]

/-- C5: when rotation triggers (`n_past + |embd| > n_ctx`, in the loop's
regime `n_keep ≤ n_past` with the splice fitting the window), the retained
prefix length is set to `max 1 n_keep` — so at least one token (BOS) is
always preserved — half of the overflowed tail (`(n_past - n_keep)/2`
tokens) is spliced back in front of `embd` from the last-N buffer, the
prompt-cache path is cleared, and from an empty path neither a loop step,
nor the remaining loop, nor the final save ever writes the session file
again. -/
theorem context_rotation_and_cache_stop (ops : Ops) (p : GptParams)
    (c : CoreState)
    (htrig : c.n_past + c.embd.length > ops.n_ctx)
    (hkeep : c.n_keep ≤ c.n_past) :
    (contextRotate ops c).n_past = max 1 c.n_keep ∧
    1 ≤ (contextRotate ops c).n_past ∧
    (contextRotate ops c).embd =
      ((c.last_n_tokens.drop
          (ops.n_ctx - (c.n_past - c.n_keep) / 2 - c.embd.length)).take
        ((c.n_past - c.n_keep) / 2)) ++ c.embd ∧
    (contextRotate ops c).path_session = "" ∧
    (∀ st : PState, st.core.path_session = "" →
      (predictStep ops p st).core.saves = st.core.saves ∧
      (predictStep ops p st).core.path_session = "") ∧
    (∀ (fuel : Nat) (st : PState), st.core.path_session = "" →
      (predictLoop ops p fuel st).core.saves = st.core.saves ∧
      (predictLoop ops p fuel st).core.path_session = "") ∧
    (∀ c' : CoreState, c'.path_session = "" → finalSave p c' = c') := by
  have hdiv : (Int.tdiv ((c.n_past : Int) - (c.n_keep : Int)) 2).toNat =
      (c.n_past - c.n_keep) / 2 := by
    have hcast : ((c.n_past : Int) - (c.n_keep : Int)) =
        ((c.n_past - c.n_keep : Nat) : Int) := by omega
    rw [hcast]
    rfl
  refine ⟨?_, ?_, ?_, ?_, predictStep_no_save ops p,
    predictLoop_no_save ops p, finalSave_of_path_empty p⟩
  · unfold contextRotate
    rw [if_pos htrig]
  · unfold contextRotate
    rw [if_pos htrig]
    exact Nat.le_max_left 1 c.n_keep
  · unfold contextRotate
    rw [if_pos htrig]
    dsimp only
    rw [hdiv]
  · unfold contextRotate
    rw [if_pos htrig]

theorem context_rotation_witness :
    (rotCore.n_past + rotCore.embd.length > witnessOps.n_ctx ∧
      rotCore.n_keep ≤ rotCore.n_past) ∧
    (contextRotate witnessOps rotCore).n_past = max 1 rotCore.n_keep ∧
    1 ≤ (contextRotate witnessOps rotCore).n_past ∧
    (contextRotate witnessOps rotCore).embd = [3, 8] ∧
    (contextRotate witnessOps rotCore).path_session = "" :=
  ⟨by decide,
   (context_rotation_and_cache_stop witnessOps miroParams rotCore
      (by decide) (by decide)).1,
   (context_rotation_and_cache_stop witnessOps miroParams rotCore
      (by decide) (by decide)).2.1,
   by
    rw [(context_rotation_and_cache_stop witnessOps miroParams rotCore
      (by decide) (by decide)).2.2.1]
    decide,
   (context_rotation_and_cache_stop witnessOps miroParams rotCore
      (by decide) (by decide)).2.2.2.1⟩

/-! The mirostat statics: in each sampling step either the v1 branch does
not run (its `mu` cell and log are untouched) or it runs and the logged
`mu` is exactly the current content of the cell (initialised on first use
to `2·tau`). -/

lemma sampleStep_mu1_cases (ops : Ops) (p : GptParams) (lastN : List Token)
    (logits0 : List FloatV) (st : MuStatics) (rng : Nat) :
    ((sampleStep ops p lastN logits0 st rng).muUsed1 = none ∧
      (sampleStep ops p lastN logits0 st rng).statics.mu1 = st.mu1) ∨
    (sampleStep ops p lastN logits0 st rng).muUsed1 =
      some (st.mu1.getD (2 * p.mirostat_tau)) := by
  unfold sampleStep
  by_cases h1 : p.temp ≤ 0
  · left
    simp [h1]
  · by_cases h2 : p.mirostat = 1
    · right
      cases hm : st.mu1 <;> simp [h1, h2, hm]
    · by_cases h3 : p.mirostat = 2
      · left
        simp [h1, h2, h3]
      · left
        simp [h1, h2, h3]

lemma sampleStep_mu2_cases (ops : Ops) (p : GptParams) (lastN : List Token)
    (logits0 : List FloatV) (st : MuStatics) (rng : Nat) :
    ((sampleStep ops p lastN logits0 st rng).muUsed2 = none ∧
      (sampleStep ops p lastN logits0 st rng).statics.mu2 = st.mu2) ∨
    (sampleStep ops p lastN logits0 st rng).muUsed2 =
      some (st.mu2.getD (2 * p.mirostat_tau)) := by
  unfold sampleStep
  by_cases h1 : p.temp ≤ 0
  · left
    simp [h1]
  · by_cases h2 : p.mirostat = 1
    · left
      simp [h1, h2]
    · by_cases h3 : p.mirostat = 2
      · right
        cases hm : st.mu2 <;> simp [h1, h2, h3, hm]
      · left
        simp [h1, h2, h3]

/-- A loop iteration either leaves the v1 log and cell alone or appends the
cell's current content (with the first-use default `2·tau`) to the log. -/
lemma predictStep_mu1_log (ops : Ops) (p : GptParams) (st : PState) :
    ((predictStep ops p st).muLog1 = st.muLog1 ∧
      (predictStep ops p st).statics.mu1 = st.statics.mu1) ∨
    (predictStep ops p st).muLog1 =
      st.muLog1 ++ [st.statics.mu1.getD (2 * p.mirostat_tau)] := by
  unfold predictStep
  dsimp only
  split
  · rcases sampleStep_mu1_cases ops p
        (saveSite p (evalPhase ops p st.core)).last_n_tokens
        (saveSite p (evalPhase ops p st.core)).lastLogits st.statics st.rng
      with ⟨hn, hs⟩ | hv
    · left
      split <;> simp [hn, hs]
    · right
      split <;> simp [hv]
  · left
    exact ⟨rfl, rfl⟩

lemma predictStep_mu2_log (ops : Ops) (p : GptParams) (st : PState) :
    ((predictStep ops p st).muLog2 = st.muLog2 ∧
      (predictStep ops p st).statics.mu2 = st.statics.mu2) ∨
    (predictStep ops p st).muLog2 =
      st.muLog2 ++ [st.statics.mu2.getD (2 * p.mirostat_tau)] := by
  unfold predictStep
  dsimp only
  split
  · rcases sampleStep_mu2_cases ops p
        (saveSite p (evalPhase ops p st.core)).last_n_tokens
        (saveSite p (evalPhase ops p st.core)).lastLogits st.statics st.rng
      with ⟨hn, hs⟩ | hv
    · left
      split <;> simp [hn, hs]
    · right
      split <;> simp [hv]
  · left
    exact ⟨rfl, rfl⟩

/-- Invariant carried through the loop: while nothing has been logged the
v1 cell still holds its incoming value, and whatever was logged first is
the incoming value (or `2·tau` if the cell was unset). -/
lemma predictLoop_mu1_inv (ops : Ops) (p : GptParams) (q0 : Option FloatV) :
    ∀ (fuel : Nat) (st : PState),
      (st.muLog1 = [] → st.statics.mu1 = q0) →
      (∀ q, st.muLog1.head? = some q → q = q0.getD (2 * p.mirostat_tau)) →
      ((predictLoop ops p fuel st).muLog1 = [] →
        (predictLoop ops p fuel st).statics.mu1 = q0) ∧
      (∀ q, (predictLoop ops p fuel st).muLog1.head? = some q →
        q = q0.getD (2 * p.mirostat_tau)) := by
  intro fuel
  induction fuel with
  | zero => intro st h1 h2; exact ⟨h1, h2⟩
  | succ n ih =>
    intro st h1 h2
    unfold predictLoop
    split
    · exact ⟨h1, h2⟩
    · apply ih
      · intro hlog
        rcases predictStep_mu1_log ops p st with ⟨hl, hs⟩ | hv
        · rw [hs]
          exact h1 (hl ▸ hlog)
        · rw [hv] at hlog
          simp at hlog
      · intro q hq
        rcases predictStep_mu1_log ops p st with ⟨hl, hs⟩ | hv
        · exact h2 q (hl ▸ hq)
        · rw [hv] at hq
          cases hlog : st.muLog1 with
          | nil =>
            rw [hlog] at hq
            simp at hq
            rw [← hq, h1 hlog]
          | cons x xs =>
            rw [hlog] at hq
            simp at hq
            exact h2 q (by rw [hlog]; simp [hq])

lemma predictLoop_mu2_inv (ops : Ops) (p : GptParams) (q0 : Option FloatV) :
    ∀ (fuel : Nat) (st : PState),
      (st.muLog2 = [] → st.statics.mu2 = q0) →
      (∀ q, st.muLog2.head? = some q → q = q0.getD (2 * p.mirostat_tau)) →
      ((predictLoop ops p fuel st).muLog2 = [] →
        (predictLoop ops p fuel st).statics.mu2 = q0) ∧
      (∀ q, (predictLoop ops p fuel st).muLog2.head? = some q →
        q = q0.getD (2 * p.mirostat_tau)) := by
  intro fuel
  induction fuel with
  | zero => intro st h1 h2; exact ⟨h1, h2⟩
  | succ n ih =>
    intro st h1 h2
    unfold predictLoop
    split
    · exact ⟨h1, h2⟩
    · apply ih
      · intro hlog
        rcases predictStep_mu2_log ops p st with ⟨hl, hs⟩ | hv
        · rw [hs]
          exact h1 (hl ▸ hlog)
        · rw [hv] at hlog
          simp at hlog
      · intro q hq
        rcases predictStep_mu2_log ops p st with ⟨hl, hs⟩ | hv
        · exact h2 q (hl ▸ hq)
        · rw [hv] at hq
          cases hlog : st.muLog2 with
          | nil =>
            rw [hlog] at hq
            simp at hq
            rw [← hq, h1 hlog]
          | cons x xs =>
            rw [hlog] at hq
            simp at hq
            exact h2 q (by rw [hlog]; simp [hq])

/-- The final save stage does not touch the mu logs or statics. -/
lemma llamaPredict_muLogs (ops : Ops) (sf : Option (List Token))
    (t r : Nat) (p : GptParams) (m : MuStatics) (fuel : Nat) :
    (llamaPredict ops sf t r p m fuel).muLog1 =
      (predictLoop ops p fuel
        { core := (llamaPredictInit ops sf t r p).core, statics := m,
          muLog1 := [], muLog2 := [],
          rng := (llamaPredictInit ops sf t r p).rng0 }).muLog1 ∧
    (llamaPredict ops sf t r p m fuel).muLog2 =
      (predictLoop ops p fuel
        { core := (llamaPredictInit ops sf t r p).core, statics := m,
          muLog1 := [], muLog2 := [],
          rng := (llamaPredictInit ops sf t r p).rng0 }).muLog2 := by
  unfold llamaPredict
  dsimp only
  constructor <;>
    · split
      · rfl
      · split <;> rfl

/-- C4 (amended): the `mu` handed to the first Mirostat sampling of a
predict call is the content of the process-wide function-local static if
it was ever set by an earlier call, and `2·tau` only when the static has
never been initialised: `mu` persists across predict calls. -/
theorem mirostat_mu_first_use (ops : Ops) (sf : Option (List Token))
    (t r : Nat) (p : GptParams) (m : MuStatics) (fuel : Nat) :
    (∀ q, (llamaPredict ops sf t r p m fuel).muLog1.head? = some q →
      q = m.mu1.getD (2 * p.mirostat_tau)) ∧
    (∀ q, (llamaPredict ops sf t r p m fuel).muLog2.head? = some q →
      q = m.mu2.getD (2 * p.mirostat_tau)) := by
  constructor
  · intro q hq
    rw [(llamaPredict_muLogs ops sf t r p m fuel).1] at hq
    exact (predictLoop_mu1_inv ops p m.mu1 fuel _
      (fun _ => rfl) (fun q hq' => by simp at hq')).2 q hq
  · intro q hq
    rw [(llamaPredict_muLogs ops sf t r p m fuel).2] at hq
    exact (predictLoop_mu2_inv ops p m.mu2 fuel _
      (fun _ => rfl) (fun q hq' => by simp at hq')).2 q hq

theorem mirostat_mu_first_use_witness :
    ((llamaPredict witnessOps none 0 0 miroParams ⟨some 7, none⟩ 8).muLog1.head?
        = some 7 ∧
      (7 : FloatV) = (some (7 : FloatV)).getD (2 * miroParams.mirostat_tau)) ∧
    ((llamaPredict witnessOps none 0 0
          { miroParams with mirostat := 2 } ⟨none, some 5⟩ 8).muLog2.head?
        = some 5 ∧
      (5 : FloatV) = (some (5 : FloatV)).getD (2 * miroParams.mirostat_tau)) :=
  ⟨⟨by decide,
    (mirostat_mu_first_use witnessOps none 0 0 miroParams ⟨some 7, none⟩ 8).1 7
      (by decide)⟩,
   ⟨by decide,
    (mirostat_mu_first_use witnessOps none 0 0
        { miroParams with mirostat := 2 } ⟨none, some 5⟩ 8).2 5 (by decide)⟩⟩

end Ollama
